import Mathlib

/-!
Shallow embedding of `src/app_local.py`, a price-scraping ETL pipeline:
fetch page → `parse_page` (extract a price observation) → `get_max_price`
(historical maximum query) → `send_telegram_message` (notification text)
→ `save_to_database` (append row).  Pure data and control flow are
translated directly from the Python source; external effects (HTTP, the
Telegram transport, the SQLite file) are modelled by explicit inputs and
explicit state (a list of rows for the `prices` table, a list of table
names for the schema).
-/

namespace AppLocal

/-- One row of the `prices` table, i.e. the dict returned by `parse_page`
(`product_name`, `old_price`, `new_price`, `installment_price`,
`timestamp`).  Python ints are unbounded, hence `Int`. -/
structure Row where
  product_name : String
  old_price : Int
  new_price : Int
  installment_price : Int
  timestamp : String
  deriving Repr, DecidableEq

/-- The parts of the parsed HTML tree (`BeautifulSoup(html, 'html.parser')`)
that `parse_page` inspects:
* `titleNode`: text of `soup.find('h1', class_='ui-pdp-title')`, `none`
  when that lookup returns `None`;
* `priceNodes`: texts of
  `soup.find_all('span', class_='andes-money-amount__fraction')` in
  document order;
* `oldPriceNode`: text of
  `soup.find('span', class_='andes-price__original-value')`, `none` when
  the lookup returns `None` or the tag is falsy (an empty tag). -/
structure Soup where
  titleNode : Option String
  priceNodes : List String
  oldPriceNode : Option String
  deriving Repr, DecidableEq

/-- Python exceptions that can escape the modelled code.  `parse_page`
catches `AttributeError` only, so the one escaping exception is the
`ValueError` raised by `int(...)` on a non-numeric string. -/
inductive PyErr where
  | valueError
  deriving Repr, DecidableEq

/-- `text.replace('.', '')`: removes every occurrence of the
thousands-separator dot. -/
def stripDots (s : String) : String :=
  ⟨s.toList.filter (fun c => c ≠ '.')⟩

/-- Python `str.strip()` / BeautifulSoup `get_text(strip=True)` on a
single text node: surrounding whitespace removed.  (Python strips the
full Unicode whitespace class; the ASCII subset suffices here.) -/
def pyStrip (s : String) : String :=
  ⟨((s.toList.dropWhile Char.isWhitespace).reverse.dropWhile Char.isWhitespace).reverse⟩

/-- Decimal digits to the `Nat` they denote, most significant first. -/
def digitsVal (cs : List Char) : Nat :=
  cs.foldl (fun acc c => acc * 10 + (c.toNat - 48)) 0

/-- A nonempty all-ASCII-digit run, or `none`. -/
def parseDigitRun (cs : List Char) : Option Nat :=
  if cs = [] then none
  else if cs.all Char.isDigit then some (digitsVal cs)
  else none

/-- Python `int(s)` on a string: surrounding whitespace is ignored, an
optional single sign precedes a nonempty digit run; anything else raises
`ValueError`, modelled by `none`.  (Python additionally accepts
underscore digit grouping and non-ASCII decimal digits; no input in this
development uses either.) -/
def pyInt (s : String) : Option Int :=
  match (pyStrip s).toList with
  | [] => none
  | c :: rest =>
    if c = '-' then (parseDigitRun rest).map (fun n => -(n : Int))
    else if c = '+' then (parseDigitRun rest).map (fun n => (n : Int))
    else (parseDigitRun (c :: rest)).map (fun n => (n : Int))

/-- `int(node_text.get_text(strip=True).replace('.', ''))`: the numeric
parse applied to each price node's text. -/
def priceVal (s : String) : Option Int :=
  pyInt (stripDots (pyStrip s))

/-- `parse_page(html)` from `src/app_local.py` lines 49-103.  `html` is
`none` for falsy raw content (`if not html: return None`), otherwise the
parsed tree.  `now` is the wall clock read by `time.strftime`.  Control
flow translated clause by clause:
* missing title node: `.get_text` on `None` raises `AttributeError`,
  caught by the `except AttributeError` handler → returns `None`;
* fewer than two price nodes: logged, returns `None`;
* `int(...)` on a non-numeric price text raises `ValueError`, which the
  handler (which names `AttributeError` only) does not catch → the
  exception escapes, modelled as `.error .valueError`;
* after the try block, `if not new_price: return None` discards a zero
  (but not a negative) current price;
* in the returned dict, falsy `old_price` / `installment_price` become
  `0`. -/
def parse_page (now : String) (html : Option Soup) : Except PyErr (Option Row) :=
  match html with
  | none => .ok none
  | some soup =>
    match soup.titleNode with
    | none => .ok none
    | some t =>
      match soup.priceNodes with
      | p0 :: p1 :: _ =>
        match priceVal p0 with
        | none => .error .valueError
        | some new_price =>
          match priceVal p1 with
          | none => .error .valueError
          | some installment_price =>
            match (match soup.oldPriceNode with
                   | none => Except.ok (none : Option Int)
                   | some o =>
                     match priceVal o with
                     | none => Except.error PyErr.valueError
                     | some v => Except.ok (some v)) with
            | .error e => .error e
            | .ok old_price =>
              if new_price == 0 then .ok none
              else .ok (some ⟨pyStrip t,
                (match old_price with
                 | some v => if v == 0 then 0 else v
                 | none => 0),
                new_price,
                (if installment_price == 0 then 0 else installment_price),
                now⟩)
      | _ => .ok none

/-- `setup_database(conn)` (lines 117-130): executes
`CREATE TABLE IF NOT EXISTS prices (...)`.  The schema state is the list
of table names present in the SQLite file; the statement adds `prices`
only when no table of that name exists and never signals an error. -/
def setup_database (tables : List String) : List String :=
  if "prices" ∈ tables then tables else tables ++ ["prices"]

/-- `save_to_database(conn, data)` (lines 132-138): `if not data:` logs a
warning and returns without touching the store; otherwise
`pd.DataFrame([data]).to_sql('prices', conn, if_exists='append', ...)`
appends exactly one row.  The table contents are the explicit state. -/
def save_to_database (rows : List Row) (data : Option Row) : List Row :=
  match data with
  | none => rows
  | some r => rows ++ [r]

/-- `WHERE product_name = ?`: the rows of the table whose `product_name`
equals the queried string exactly, in rowid (insertion) order. -/
def rowsFor (rows : List Row) (name : String) : List Row :=
  rows.filter (fun r => r.product_name == name)

/-- One step of SQLite's scan for
`SELECT MAX(new_price), timestamp FROM prices WHERE ...`: the
accumulator holds the best `(new_price, timestamp)` so far; `max()` only
replaces it on a strictly greater value, so the bare `timestamp` column
reports the first row (in scan order) attaining the maximum. -/
def maxStep (acc : Option (Int × String)) (r : Row) : Option (Int × String) :=
  match acc with
  | none => some (r.new_price, r.timestamp)
  | some (m, ts) => if m < r.new_price then some (r.new_price, r.timestamp) else some (m, ts)

/-- `get_max_price(conn, product_name)` (lines 140-147): runs the
aggregate query above; when no row matches, `MAX(new_price)` is NULL and
the function returns `(None, None)`, otherwise the maximum `new_price`
and the accompanying row's `timestamp`. -/
def get_max_price (rows : List Row) (name : String) : Option Int × Option String :=
  match (rowsFor rows name).foldl maxStep none with
  | none => (none, none)
  | some (m, ts) => (some m, some ts)

/-- Python's f-string rendering of a `str | None` value: `None` prints as
the text `None`. -/
def renderOptStr (s : Option String) : String :=
  match s with
  | none => "None"
  | some t => t

/-- The fixed header of every notification: product name and current
price lines (lines 152-156). -/
def messageHeader (product_name : String) (current_price : Int) : String :=
  "📊 *Monitoramento de Preços:*\n\n" ++
  "Produto: *" ++ product_name ++ "*\n" ++
  "Preço Atual: R$ " ++ toString current_price ++ "\n"

/-- The text built by `send_telegram_message(product_name, current_price,
max_price, max_price_timestamp)` (lines 149-164).  Delivery
(`bot.send_message`) is an external effect whose failures are caught and
logged inside the function; the modelled observable is the message
string.  Branching: `max_price is None` → first-record line;
`current_price > max_price` → new-high line; otherwise the
previous-maximum line. -/
def telegram_message (product_name : String) (current_price : Int)
    (max_price : Option Int) (max_price_timestamp : Option String) : String :=
  match max_price with
  | none => messageHeader product_name current_price ++
      "Este é o primeiro registro de preço.\n"
  | some m =>
    if current_price > m then
      messageHeader product_name current_price ++ "Novo preço maior registrado!\n"
    else
      messageHeader product_name current_price ++
        "Maior preço registrado: R$ " ++ toString m ++ " em " ++
        renderOptStr max_price_timestamp ++ "\n"

/-- The per-URL body of one poll cycle in `main` (lines 175-193), run
over the cycle's URL list.  Each list element is the fetched-and-parsed
content for one URL (`fetch_page` already returns `None` on any
transport failure, so its outcome is part of the input).  If
`parse_page` yields no product info the loop logs and `continue`s to the
next URL; otherwise it queries the historical maximum for the product
name, sends the notification, and only then inserts the observation.
An exception escaping `parse_page` aborts the whole loop (nothing in
`main` catches it).  Returns the final table contents and the
notification messages sent, in order. -/
def run_cycle (now : String) (rows : List Row) :
    List (Option Soup) → Except PyErr (List Row × List String)
  | [] => .ok (rows, [])
  | content :: rest =>
    match parse_page now content with
    | .error e => .error e
    | .ok none => run_cycle now rows rest
    | .ok (some info) =>
      match get_max_price rows info.product_name with
      | (max_price, max_price_timestamp) =>
        match run_cycle now (save_to_database rows (some info)) rest with
        | .error e => .error e
        | .ok (finalRows, msgs) =>
          .ok (finalRows,
            telegram_message info.product_name info.new_price max_price
              max_price_timestamp :: msgs)

/-! ## Helper lemmas -/

theorem rowsFor_append (l₁ l₂ : List Row) (name : String) :
    rowsFor (l₁ ++ l₂) name = rowsFor l₁ name ++ rowsFor l₂ name :=
  List.filter_append l₁ l₂

theorem rowsFor_singleton_self (r : Row) (name : String) (h : r.product_name = name) :
    rowsFor [r] name = [r] := by
  simp [rowsFor, h]

theorem mem_of_rowsFor {rows : List Row} {name : String} {x : Row}
    (h : x ∈ rowsFor rows name) : x ∈ rows :=
  (List.mem_filter.mp h).1

theorem foldl_maxStep_mem :
    ∀ (l : List Row) (acc : Option (Int × String)) (m : Int) (ts : String),
      l.foldl maxStep acc = some (m, ts) →
      acc = some (m, ts) ∨ ∃ x ∈ l, x.new_price = m
  | [], acc, m, ts, h => Or.inl h
  | r :: l, acc, m, ts, h => by
    rcases foldl_maxStep_mem l (maxStep acc r) m ts h with h1 | ⟨x, hx, hxm⟩
    · match acc, h1 with
      | none, h1 =>
        exact Or.inr ⟨r, List.mem_cons_self r l, congrArg Prod.fst (Option.some.inj h1)⟩
      | some (m0, ts0), h1 =>
        by_cases hc : m0 < r.new_price
        · simp only [maxStep, if_pos hc] at h1
          exact Or.inr ⟨r, List.mem_cons_self r l, congrArg Prod.fst (Option.some.inj h1)⟩
        · simp only [maxStep, if_neg hc] at h1
          exact Or.inl h1
    · exact Or.inr ⟨x, List.mem_cons_of_mem r hx, hxm⟩

/-- Inserting a row whose `new_price` strictly exceeds every matching
row already in the table makes it the unique maximum: `get_max_price`
then reports its price and its timestamp. -/
theorem get_max_price_strict_insert (rows : List Row) (r : Row) (name : String)
    (hname : r.product_name = name)
    (hlt : ∀ x ∈ rowsFor rows name, x.new_price < r.new_price) :
    get_max_price (rows ++ [r]) name = (some r.new_price, some r.timestamp) := by
  unfold get_max_price
  rw [rowsFor_append, rowsFor_singleton_self r name hname, List.foldl_append]
  rcases hacc : (rowsFor rows name).foldl maxStep none with _ | ⟨m, ts⟩
  · rfl
  · rcases foldl_maxStep_mem _ _ _ _ hacc with h1 | ⟨x, hx, hxm⟩
    · exact absurd h1 (by simp)
    · have hm : m < r.new_price := hxm ▸ hlt x hx
      simp [maxStep, if_pos hm]

/-- Sequential insertion through `save_to_database` appends the rows in
order. -/
theorem insertAll_eq_append :
    ∀ (l : List Row) (rows : List Row),
      l.foldl (fun d x => save_to_database d (some x)) rows = rows ++ l
  | [], rows => by simp
  | r :: l, rows => by
    rw [List.foldl_cons, insertAll_eq_append l (save_to_database rows (some r))]
    simp [save_to_database]

/-! ## Claim theorems -/

/-- C1, counterexample: on a page with a title node and price-node texts
`"abc"` and `"10"`, the located price text `"abc"` is not convertible to
an integer, and `parse_page` does not return absence — the `ValueError`
from `int("abc")` escapes its boundary (only `AttributeError` is
caught). -/
theorem parse_page_nonnumeric_price_raises_cex :
    parse_page "2024-01-01 00:00:00" (some ⟨some "Produto", ["abc", "10"], none⟩) =
      Except.error PyErr.valueError ∧
    parse_page "2024-01-01 00:00:00" (some ⟨some "Produto", ["abc", "10"], none⟩) ≠
      Except.ok none :=
  ⟨rfl, fun h => nomatch h⟩

/-- C1, amended: a located price text that is not convertible to an
integer is treated as an uncaught `ValueError` escaping `parse_page`
(whichever of the three price texts it is), not as absence; only the
structural lookup failure (missing title node, an `AttributeError`) is
caught and converted to absence. -/
theorem parse_page_numeric_error_escapes (now t p0 p1 : String) (rest : List String)
    (old : Option String) :
    (priceVal p0 = none →
      parse_page now (some ⟨some t, p0 :: p1 :: rest, old⟩) = .error .valueError) ∧
    (∀ v, priceVal p0 = some v → priceVal p1 = none →
      parse_page now (some ⟨some t, p0 :: p1 :: rest, old⟩) = .error .valueError) ∧
    (∀ v w o, priceVal p0 = some v → priceVal p1 = some w → old = some o →
      priceVal o = none →
      parse_page now (some ⟨some t, p0 :: p1 :: rest, old⟩) = .error .valueError) ∧
    parse_page now (some ⟨none, p0 :: p1 :: rest, old⟩) = .ok none := by
  refine ⟨fun h0 => ?_, fun v h0 h1 => ?_, fun v w o h0 h1 ho h2 => ?_, rfl⟩
  · simp [parse_page, h0]
  · simp [parse_page, h0, h1]
  · subst ho; simp [parse_page, h0, h1, h2]

/-- C1, witness for the amended theorem at the counterexample input. -/
theorem parse_page_numeric_error_escapes_witness :
    parse_page "2024-01-01 00:00:00" (some ⟨some "Produto", ["abc", "10"], none⟩) =
      .error .valueError :=
  (parse_page_numeric_error_escapes "2024-01-01 00:00:00" "Produto" "abc" "10" [] none).1 rfl

/-- C2: on raw content with a title node but exactly one money-fraction
price node, `parse_page` takes the `len(prices) < 2` branch: it logs the
insufficient-price-nodes error and returns absence (the require-two
policy), so no observation — in particular none with
`installment_price` defaulted to `new_price` — is ever produced. -/
theorem parse_page_single_price_node_absence (now t p : String) (old : Option String) :
    parse_page now (some ⟨some t, [p], old⟩) = .ok none :=
  rfl

/-- C8: `save_to_database` on an absent observation is a no-op (it only
logs a warning): the table contents are unchanged. -/
theorem save_to_database_none_noop (rows : List Row) :
    save_to_database rows none = rows :=
  rfl

/-- C10: `save_to_database` validates nothing about a present
observation: any non-null record — whatever its `new_price`, including
zero or negative — is appended to the table exactly as given, so the
positivity of stored prices rests on the extractor alone. -/
theorem save_to_database_no_validation (rows : List Row) (r : Row) :
    save_to_database rows (some r) = rows ++ [r] :=
  rfl

/-- C9, counterexample: with price-node texts `"-7"` and `"10"`, the
extracted `new_price` is `-7 ≤ 0`, yet `parse_page` returns an
observation rather than absence — `if not new_price` only discards the
value `0`. -/
theorem parse_page_negative_price_accepted_cex :
    parse_page "2024-01-01 00:00:00" (some ⟨some "Produto", ["-7", "10"], none⟩) =
      Except.ok (some ⟨"Produto", 0, -7, 10, "2024-01-01 00:00:00"⟩) ∧
    (⟨"Produto", 0, -7, 10, "2024-01-01 00:00:00"⟩ : Row).new_price ≤ 0 :=
  ⟨rfl, by norm_num⟩

/-- C9, amended: absence is returned exactly for a resolved `new_price`
of `0` (`if not new_price: return None`); a non-numeric price text
raises an uncaught `ValueError` instead of absence, and a negative
resolved `new_price` is accepted and returned. -/
theorem parse_page_zero_price_absence (now t p0 p1 : String) (rest : List String)
    (w : Int) (h0 : priceVal p0 = some 0) (h1 : priceVal p1 = some w) :
    parse_page now (some ⟨some t, p0 :: p1 :: rest, none⟩) = .ok none := by
  simp [parse_page, h0, h1]

/-- C9, witness: price texts `"0"` and `"10"` resolve to `0` and `10`,
and extraction returns absence. -/
theorem parse_page_zero_price_absence_witness :
    parse_page "2024-01-01 00:00:00" (some ⟨some "Produto", ["0", "10"], none⟩) = .ok none :=
  parse_page_zero_price_absence "2024-01-01 00:00:00" "Produto" "0" "10" [] 10 rfl rfl

theorem messageHeader_decomp (n : String) (cp : Int) :
    messageHeader n cp =
      ("📊 *Monitoramento de Preços:*\n\nProduto: *" ++ n) ++
        ("*\nPreço Atual: R$ " ++ (toString cp ++ "\n")) := by
  simp [messageHeader, String.append_assoc]

/-- C4: the notification text always contains the product name and the
current price, and branches on the historical state: no prior maximum →
the first-record variant; `current_price > max_price` → the new-high
variant; otherwise (equality included) → the previous-maximum variant
with its value and timestamp. -/
theorem telegram_message_branches (product_name : String) (current_price : Int)
    (max_price : Option Int) (max_price_timestamp : Option String) :
    (∃ a b, telegram_message product_name current_price max_price max_price_timestamp =
      a ++ product_name ++ b) ∧
    (∃ a b, telegram_message product_name current_price max_price max_price_timestamp =
      a ++ toString current_price ++ b) ∧
    (max_price = none →
      telegram_message product_name current_price max_price max_price_timestamp =
        messageHeader product_name current_price ++
          "Este é o primeiro registro de preço.\n") ∧
    (∀ m, max_price = some m → m < current_price →
      telegram_message product_name current_price max_price max_price_timestamp =
        messageHeader product_name current_price ++ "Novo preço maior registrado!\n") ∧
    (∀ m, max_price = some m → current_price ≤ m →
      telegram_message product_name current_price max_price max_price_timestamp =
        messageHeader product_name current_price ++
          "Maior preço registrado: R$ " ++ toString m ++ " em " ++
          renderOptStr max_price_timestamp ++ "\n") := by
  obtain ⟨tail, htail⟩ :
      ∃ tail, telegram_message product_name current_price max_price max_price_timestamp =
        messageHeader product_name current_price ++ tail := by
    cases max_price with
    | none => exact ⟨_, rfl⟩
    | some m =>
      by_cases h : current_price > m
      · exact ⟨"Novo preço maior registrado!\n", by simp [telegram_message, h]⟩
      · refine ⟨"Maior preço registrado: R$ " ++ toString m ++ " em " ++
          renderOptStr max_price_timestamp ++ "\n", ?_⟩
        simp [telegram_message, h, String.append_assoc]
  refine ⟨⟨"📊 *Monitoramento de Preços:*\n\nProduto: *",
      "*\nPreço Atual: R$ " ++ (toString current_price ++ ("\n" ++ tail)), ?_⟩,
    ⟨"📊 *Monitoramento de Preços:*\n\nProduto: *" ++
      (product_name ++ "*\nPreço Atual: R$ "), "\n" ++ tail, ?_⟩,
    fun h => by subst h; rfl,
    fun m hm hlt => by subst hm; simp only [telegram_message]; rw [if_pos hlt],
    fun m hm hle => by
      subst hm; simp only [telegram_message]
      rw [if_neg (not_lt.mpr hle)]⟩
  · rw [htail, messageHeader_decomp]; simp only [String.append_assoc]
  · rw [htail, messageHeader_decomp]; simp only [String.append_assoc]

/-- C4, witness: with a prior maximum equal to the current price the
message takes the previous-maximum branch. -/
theorem telegram_message_branches_witness :
    telegram_message "X" 5 (some 5) (some "2024-01-01 10:00:00") =
      messageHeader "X" 5 ++
        "Maior preço registrado: R$ " ++ toString (5 : Int) ++ " em " ++
        renderOptStr (some "2024-01-01 10:00:00") ++ "\n" :=
  (telegram_message_branches "X" 5 (some 5) (some "2024-01-01 10:00:00")).2.2.2.2 5 rfl
    (le_refl 5)

/-- C6: for a product name with no matching row in the table,
`get_max_price` returns the absent pair `(None, None)`, and feeding that
absent maximum to the notifier yields the first-record message
variant. -/
theorem get_max_price_empty_first_record (rows : List Row) (name : String) (cp : Int)
    (h : rowsFor rows name = []) :
    get_max_price rows name = (none, none) ∧
    telegram_message name cp (get_max_price rows name).1 (get_max_price rows name).2 =
      messageHeader name cp ++ "Este é o primeiro registro de preço.\n" := by
  have h1 : get_max_price rows name = (none, none) := by
    unfold get_max_price; rw [h]; rfl
  exact ⟨h1, by rw [h1]; exact rfl⟩

/-- C6, witness: the empty store has no row for `"X"`. -/
theorem get_max_price_empty_first_record_witness :
    get_max_price [] "X" = (none, none) ∧
    telegram_message "X" 7 (get_max_price [] "X").1 (get_max_price [] "X").2 =
      messageHeader "X" 7 ++ "Este é o primeiro registro de preço.\n" :=
  get_max_price_empty_first_record [] "X" 7 rfl

/-- C7: `CREATE TABLE IF NOT EXISTS` makes `setup_database` idempotent —
a second call in sequence changes nothing (and, being an `IF NOT EXISTS`
statement, raises no error); when the table is already present the call
is side-effect-free; starting from an empty schema, two calls leave
exactly one `prices` table. -/
theorem setup_database_idempotent (tables : List String) :
    setup_database (setup_database tables) = setup_database tables ∧
    ("prices" ∈ tables → setup_database tables = tables) ∧
    (setup_database (setup_database [])).count "prices" = 1 := by
  refine ⟨?_, fun h => if_pos h, rfl⟩
  by_cases h : "prices" ∈ tables <;> simp [setup_database, h]

/-- C7, witness: a schema already holding `prices` is left unchanged. -/
theorem setup_database_idempotent_witness :
    setup_database ["prices"] = ["prices"] :=
  (setup_database_idempotent ["prices"]).2.1 (List.mem_singleton.mpr rfl)

/-- C3: monotonic history.  Insert, via `save_to_database`, a sequence
of observations for one product name with strictly increasing
`new_price` into a store holding no row for that name; then after each
insert — i.e. after any prefix `pre ++ [r]` of the sequence —
`get_max_price` returns the most recently inserted `new_price` together
with that row's timestamp. -/
theorem get_max_price_monotonic_history (db : List Row) (name : String)
    (pre suf : List Row) (r : Row)
    (hdb : rowsFor db name = [])
    (hnames : ∀ x ∈ pre ++ r :: suf, x.product_name = name)
    (hchain : (pre ++ r :: suf).Chain' (fun a b => a.new_price < b.new_price)) :
    get_max_price ((pre ++ [r]).foldl (fun d x => save_to_database d (some x)) db) name =
      (some r.new_price, some r.timestamp) := by
  haveI : IsTrans Row (fun a b => a.new_price < b.new_price) :=
    ⟨fun a b c h1 h2 => lt_trans h1 h2⟩
  have hpair := List.chain'_iff_pairwise.mp hchain
  rw [insertAll_eq_append, (List.append_assoc db pre [r]).symm]
  apply get_max_price_strict_insert
  · exact hnames r (by simp)
  · intro x hx
    rw [rowsFor_append, hdb, List.nil_append] at hx
    exact (List.pairwise_append.mp hpair).2.2 x (mem_of_rowsFor hx) r (by simp)

/-- C3, witness: inserting prices 10 then 20 (of the increasing sequence
10, 20, 30) for product `"P"` into an empty store; after the second
insert the maximum is 20 with timestamp `"t2"`. -/
theorem get_max_price_monotonic_history_witness :
    get_max_price ((([⟨"P", 0, 10, 0, "t1"⟩] : List Row) ++
          ([⟨"P", 0, 20, 0, "t2"⟩] : List Row)).foldl
        (fun d x => save_to_database d (some x)) []) "P" =
      (some 20, some "t2") :=
  get_max_price_monotonic_history [] "P" [⟨"P", 0, 10, 0, "t1"⟩] [⟨"P", 0, 30, 0, "t3"⟩]
    ⟨"P", 0, 20, 0, "t2"⟩ rfl (by decide)
    (by simp [List.chain'_cons, List.singleton_append])

/-- C5: per-URL behaviour of one poll cycle.  When extraction returns
absence the loop `continue`s: the URL contributes no maximum query, no
notification and no insertion, and the remaining URLs are still
processed from an unchanged store.  When extraction yields an
observation, the historical-maximum query and the notification happen
before the insert, so the notified maximum is computed over the store
without the current observation — in particular, a product with no prior
rows gets the first-record message even though its row is in the store
afterwards. -/
theorem run_cycle_skip_and_order (now : String) (rows : List Row)
    (content : Option Soup) (rest : List (Option Soup)) :
    (parse_page now content = .ok none →
      run_cycle now rows (content :: rest) = run_cycle now rows rest) ∧
    (∀ info, parse_page now content = .ok (some info) →
      run_cycle now rows (content :: rest) =
        (run_cycle now (rows ++ [info]) rest).map
          (fun res => (res.1,
            telegram_message info.product_name info.new_price
              (get_max_price rows info.product_name).1
              (get_max_price rows info.product_name).2 :: res.2))) ∧
    (∀ info, parse_page now content = .ok (some info) →
      rowsFor rows info.product_name = [] →
      run_cycle now rows [content] =
        .ok (rows ++ [info],
          [messageHeader info.product_name info.new_price ++
            "Este é o primeiro registro de preço.\n"])) := by
  refine ⟨fun h => ?_, fun info h => ?_, fun info h hempty => ?_⟩
  · simp [run_cycle, h]
  · simp only [run_cycle, h, save_to_database]
    rcases hr : run_cycle now (rows ++ [info]) rest with e | ⟨fr, msgs⟩ <;>
      simp [Except.map]
  · have hmax : get_max_price rows info.product_name = (none, none) := by
      unfold get_max_price; rw [hempty]; rfl
    simp [run_cycle, h, hmax, save_to_database, telegram_message]

/-- C5, witness: a one-price-node page is skipped (same outcome as an
empty cycle); a two-price-node page on an empty store is queried,
notified with the first-record message, and then inserted. -/
theorem run_cycle_skip_and_order_witness :
    run_cycle "T0" [] [some ⟨some "T", ["5"], none⟩] = run_cycle "T0" [] [] ∧
    run_cycle "T0" [] [some ⟨some "T", ["5", "6"], none⟩] =
      .ok ([⟨"T", 0, 5, 6, "T0"⟩],
        [messageHeader "T" 5 ++ "Este é o primeiro registro de preço.\n"]) :=
  ⟨(run_cycle_skip_and_order "T0" [] (some ⟨some "T", ["5"], none⟩) []).1 rfl,
   (run_cycle_skip_and_order "T0" [] (some ⟨some "T", ["5", "6"], none⟩) []).2.2
     ⟨"T", 0, 5, 6, "T0"⟩ rfl rfl⟩

end AppLocal
